import Mathlib

/-!
# TemperatureFader — shallow embedding and verification

Shallow embedding of `src/modules/tools/temperaturefader/TemperatureFader.{h,cpp}`
from Smoothieware (walterhsiao fork).

Modelling conventions:
* C++ `float` values (temperatures, the running pwm value, the interpolation
  fraction) are modelled as exact rationals `ℚ`; every float operation the
  module performs (comparison, subtraction, division, multiplication,
  int cast) is modelled by the corresponding exact operation.
* `uint8_t` / `uint16_t` fields are modelled as `ℕ`; the one place where a
  `uint16_t` is stored into the `int16_t` field `countdown_timer`
  (`ts->countdown_timer = ts->temperaturefader_heatup_poll;` and the
  countdown resets in `on_second_tick`) is modelled by the modular
  reinterpretation `int16ofUInt16` (GCC / two's-complement semantics).
* The external collaborators are explicit parameters: temperature lookup is
  a function `Nat → Option ℚ` (`none` = `PublicData::get_value` failed),
  and the switch sink is a `SinkEnv` of success flags for the two
  `PublicData::set_value` calls.  The externally observable effects of a
  call are returned as a list of `SinkWrite`s (the attempted writes, in
  order) and a list of log strings (the `printf` diagnostics).
-/

namespace TemperatureFaderModel

/-- One external write attempted on the switch/output sink
(`PublicData::set_value(switch_checksum, …, state_checksum/value_checksum, …)`). -/
inductive SinkWrite where
  | stateWrite (onFlag : Bool) : SinkWrite
  | valueWrite (v : ℚ) : SinkWrite
deriving DecidableEq, Repr

/-- Success/failure of the two kinds of sink writes (`PublicData::set_value`
return values).  The module only inspects them to decide whether to log. -/
structure SinkEnv where
  state_write_ok : Bool
  value_write_ok : Bool
deriving DecidableEq, Repr

/-- The fields of the C++ class `TemperatureFader`
(`TemperatureFader.h`, lines 45-85), with C++ names kept. -/
structure FaderState where
  temp_controllers : List Nat
  temperaturefader_min_fade_temp : ℚ
  temperaturefader_max_fade_temp : ℚ
  temperaturefader_min_fade_pwm : Nat
  temperaturefader_max_fade_pwm : Nat
  temperaturefader_switch_cs : Nat
  temperaturefader_heatup_poll : Nat
  temperaturefader_cooldown_poll : Nat
  temperaturefader_fading_poll : Nat
  countdown_timer : ℤ
  temperaturefader_pwm_value : ℚ
  temperaturefader_state : Bool
deriving DecidableEq, Repr

/-- The constructor `TemperatureFader::TemperatureFader()` (cpp lines 56-70),
with the `default_*` constants of cpp lines 47-53. -/
def faderInit : FaderState :=
  { temp_controllers := []
    temperaturefader_min_fade_temp := 50
    temperaturefader_max_fade_temp := 150
    temperaturefader_min_fade_pwm := 0
    temperaturefader_max_fade_pwm := 255
    temperaturefader_switch_cs := 0
    temperaturefader_heatup_poll := 15
    temperaturefader_cooldown_poll := 60
    temperaturefader_fading_poll := 1
    countdown_timer := 0
    temperaturefader_pwm_value := 0
    temperaturefader_state := false }

/-- Reinterpretation of a `uint16_t` value as `int16_t`
(two's-complement, the behaviour of the GCC/ARM target). -/
def int16ofUInt16 (n : Nat) : ℤ :=
  if n % 65536 < 32768 then ((n % 65536 : Nat) : ℤ)
  else ((n % 65536 : Nat) : ℤ) - 65536

/-- Truncation toward zero of a rational, the semantics of the C++
float-to-`int` cast in `on_second_tick`'s fading branch. -/
def qtrunc (q : ℚ) : ℤ :=
  if 0 ≤ q then ⌊q⌋ else ⌈q⌉

/-- Log line printed when the on/off state write fails (cpp line 226). -/
def stateFailMsg : String := "Failed updating TemperatureFader state.\r\n"

/-- Log line printed when the pwm value write fails (cpp line 234). -/
def valueFailMsg : String := "Failed updating TemperatureFader pwm value.\r\n"

/-- `TemperatureFader::set_pwm(float value)` (cpp lines 216-237).
Returns the updated object, the sink writes attempted (in order), and the
log lines printed. -/
def set_pwm (env : SinkEnv) (f : FaderState) (value : ℚ) :
    FaderState × List SinkWrite × List String :=
  if f.temperaturefader_pwm_value ≠ value then
    let onFlag : Bool := decide ((f.temperaturefader_min_fade_pwm : ℚ) < value)
    let stateStep : FaderState × List SinkWrite × List String :=
      if onFlag ≠ f.temperaturefader_state then
        ({ f with temperaturefader_state := onFlag },
         [SinkWrite.stateWrite onFlag],
         if env.state_write_ok then [] else [stateFailMsg])
      else (f, [], [])
    ({ stateStep.1 with temperaturefader_pwm_value := value },
     stateStep.2.1 ++ [SinkWrite.valueWrite value],
     stateStep.2.2 ++ if env.value_write_ok then [] else [valueFailMsg])
  else (f, [], [])

/-- `TemperatureFader::get_highest_temperature()` (cpp lines 197-213).
`read c = none` models a failed `PublicData::get_value` for controller `c`. -/
def get_highest_temperature (read : Nat → Option ℚ) (f : FaderState) : ℚ :=
  f.temp_controllers.foldl
    (fun high_temp c =>
      match read c with
      | some t => if high_temp < t then t else high_temp
      | none => high_temp)
    0

/-- `TemperatureFader::on_second_tick(void *)` (cpp lines 174-194). -/
def on_second_tick (read : Nat → Option ℚ) (env : SinkEnv) (f : FaderState) :
    FaderState × List SinkWrite × List String :=
  if f.countdown_timer ≤ 1 then
    let current_temp := get_highest_temperature read f
    if current_temp ≤ f.temperaturefader_min_fade_temp then
      let r := set_pwm env f (f.temperaturefader_min_fade_pwm : ℚ)
      ({ r.1 with countdown_timer := int16ofUInt16 f.temperaturefader_heatup_poll },
       r.2.1, r.2.2)
    else if f.temperaturefader_max_fade_temp ≤ current_temp then
      let r := set_pwm env f (f.temperaturefader_max_fade_pwm : ℚ)
      ({ r.1 with countdown_timer := int16ofUInt16 f.temperaturefader_cooldown_poll },
       r.2.1, r.2.2)
    else
      let frac := (current_temp - f.temperaturefader_min_fade_temp) /
        (f.temperaturefader_max_fade_temp - f.temperaturefader_min_fade_temp)
      let value : ℚ :=
        (((f.temperaturefader_min_fade_pwm : ℤ) +
          qtrunc (frac * ((f.temperaturefader_max_fade_pwm : ℚ) -
            (f.temperaturefader_min_fade_pwm : ℚ)))) : ℤ)
      let r := set_pwm env f value
      ({ r.1 with countdown_timer := int16ofUInt16 f.temperaturefader_fading_poll },
       r.2.1, r.2.2)
  else
    ({ f with countdown_timer := f.countdown_timer - 1 }, [], [])

/-- The branch `on_second_tick` takes, by the same tests in the same order
(cpp lines 176, 179, 182, 185, 191). -/
inductive TickBranch where
  | wait : TickBranch
  | idle : TickBranch
  | full : TickBranch
  | fading : TickBranch
deriving DecidableEq, Repr

/-- Which branch of `on_second_tick` runs on a given state and readings. -/
def tick_branch (read : Nat → Option ℚ) (f : FaderState) : TickBranch :=
  if f.countdown_timer ≤ 1 then
    let current_temp := get_highest_temperature read f
    if current_temp ≤ f.temperaturefader_min_fade_temp then TickBranch.idle
    else if f.temperaturefader_max_fade_temp ≤ current_temp then TickBranch.full
    else TickBranch.fading
  else TickBranch.wait

/-- What the factory sees of one temperature controller in
`TemperatureControlPool`: its handle, whether `PublicData::get_value`
succeeds for it, and the `pad_temperature` data it then returns
(first designator character and current temperature). -/
structure SourceInfo where
  id : Nat
  temp_ok : Bool
  designator : Char
  current_temperature : ℚ
deriving DecidableEq, Repr

/-- One raw configuration entry as `load_config` reads it: each
`config->value(...)->by_default(d)->as_...()` chain is a field, `none`
meaning the key is absent so the default applies.  String-valued keys are
`List Char` (empty list = empty string).  The `fading_poll` key exists in
the config schema (its checksum is defined at cpp line 44) and is included
here even though `load_config` never reads it. -/
structure FaderConfig where
  enable : Bool
  designator : List Char
  switch : List Char
  type : List Char
  min_fade_temp : Option ℚ
  max_fade_temp : Option ℚ
  min_fade_pwm : Option Nat
  max_fade_pwm : Option Nat
  heatup_poll : Option Nat
  cooldown_poll : Option Nat
  fading_poll : Option Nat
deriving DecidableEq, Repr

/-- `TemperatureFader::load_config(uint16_t modcs)` (cpp lines 91-171).
`hotend_cs` is the value of `CHECKSUM("hotend")`, `get_checksum` the
checksum function applied to the switch name, `loader` the `this` object
the method runs on (the throwaway instance created in `on_module_loaded`).
Returns the `this` object as left after the call, and the newly created
controller (`ts`) when the entry is valid, `none` when it is dropped.
Note (cpp lines 154-160): the range clamp is applied to the **loader's**
fields (the statements lack the `ts->` prefix used on every neighbouring
line), so it never affects the created controller. -/
def load_config (hotend_cs : Nat) (get_checksum : List Char → Nat) (modcs : Nat)
    (cfg : FaderConfig) (pool : List SourceInfo) (loader : FaderState) :
    FaderState × Option FaderState :=
  if ¬ cfg.enable then (loader, none)
  else
    let designator : Char :=
      match cfg.designator with
      | [] => if modcs = hotend_cs then 'T' else Char.ofNat 0
      | c :: _ => c
    if designator = Char.ofNat 0 then (loader, none)
    else
      let ctrls : List Nat :=
        (pool.filter (fun s => s.temp_ok && s.designator == designator)).map SourceInfo.id
      if ctrls.isEmpty then (loader, none)
      else
        let sw : List Char := if cfg.switch.isEmpty then cfg.type else cfg.switch
        if sw.isEmpty then (loader, none)
        else
          let ts1 : FaderState :=
            { faderInit with
              temp_controllers := ctrls
              temperaturefader_switch_cs := get_checksum sw
              temperaturefader_min_fade_temp := cfg.min_fade_temp.getD 50
              temperaturefader_max_fade_temp := cfg.max_fade_temp.getD 150
              temperaturefader_min_fade_pwm := cfg.min_fade_pwm.getD 0
              temperaturefader_max_fade_pwm := cfg.max_fade_pwm.getD 255 }
          let loader1 : FaderState :=
            { loader with
              temperaturefader_max_fade_temp :=
                if loader.temperaturefader_max_fade_temp <
                    loader.temperaturefader_min_fade_temp then
                  loader.temperaturefader_min_fade_temp
                else loader.temperaturefader_max_fade_temp
              temperaturefader_max_fade_pwm :=
                if loader.temperaturefader_max_fade_pwm <
                    loader.temperaturefader_min_fade_pwm then
                  loader.temperaturefader_min_fade_pwm
                else loader.temperaturefader_max_fade_pwm }
          let ts2 : FaderState :=
            { ts1 with
              temperaturefader_heatup_poll := cfg.heatup_poll.getD 15
              temperaturefader_cooldown_poll := cfg.cooldown_poll.getD 60 }
          let ts3 : FaderState :=
            { ts2 with
              countdown_timer := int16ofUInt16 ts2.temperaturefader_heatup_poll }
          (loader1, some ts3)

/-! ## Helper lemmas -/

/-- Closed form of `set_pwm`: a call with the current value is a no-op;
a call with a differing value updates `temperaturefader_state` and
`temperaturefader_pwm_value`, attempts the state write exactly when the
on/off flag changes, always attempts the value write, and logs exactly the
failed writes. -/
theorem set_pwm_spec (env : SinkEnv) (f : FaderState) (v : ℚ) :
    set_pwm env f v =
      if f.temperaturefader_pwm_value = v then (f, [], [])
      else
        ({ f with
            temperaturefader_state := decide ((f.temperaturefader_min_fade_pwm : ℚ) < v)
            temperaturefader_pwm_value := v },
         (if decide ((f.temperaturefader_min_fade_pwm : ℚ) < v) = f.temperaturefader_state
            then []
            else [SinkWrite.stateWrite (decide ((f.temperaturefader_min_fade_pwm : ℚ) < v))])
           ++ [SinkWrite.valueWrite v],
         (if decide ((f.temperaturefader_min_fade_pwm : ℚ) < v) = f.temperaturefader_state
              ∨ env.state_write_ok = true
            then [] else [stateFailMsg])
           ++ (if env.value_write_ok = true then [] else [valueFailMsg])) := by
  unfold set_pwm
  by_cases h : f.temperaturefader_pwm_value = v
  · simp [h]
  · by_cases hon :
        decide ((f.temperaturefader_min_fade_pwm : ℚ) < v) = f.temperaturefader_state
    · simp [h, hon]
    · cases hs : env.state_write_ok <;> simp [h, hon, hs]

/-- The pwm value stored after any `set_pwm` call is the argument. -/
theorem set_pwm_pwm_value (env : SinkEnv) (f : FaderState) (v : ℚ) :
    (set_pwm env f v).1.temperaturefader_pwm_value = v := by
  rw [set_pwm_spec]
  by_cases h : f.temperaturefader_pwm_value = v <;> simp [h]

/-- The accumulator form of `get_highest_temperature`'s loop is a
`max`-fold over the successfully read temperatures. -/
theorem foldl_read_max (read : Nat → Option ℚ) :
    ∀ (l : List Nat) (a : ℚ),
      l.foldl
        (fun high_temp c =>
          match read c with
          | some t => if high_temp < t then t else high_temp
          | none => high_temp) a
        = (l.filterMap read).foldl max a := by
  intro l
  induction l with
  | nil => intro a; rfl
  | cons c l ih =>
    intro a
    cases hr : read c with
    | none => simpa [List.filterMap_cons, hr] using ih a
    | some t =>
      have hstep : (if a < t then t else a) = max a t := by
        rcases lt_or_le a t with h | h
        · simp [h, max_eq_right h.le]
        · simp [not_lt.mpr h, max_eq_left h]
      simpa [List.filterMap_cons, hr, hstep] using ih (max a t)

/-- Fields of a controller created by `load_config`: the fields set from the
configuration entry, and the fields simply inherited from the constructor —
in particular `temperaturefader_fading_poll` stays at its constructor
default `1` (no line of `load_config` reads the `fading_poll` key), the
pwm value stays `0`, the state stays `false`, and no clamping has been
applied to the created controller's range fields. -/
theorem load_config_created_fields (hc : Nat) (gc : List Char → Nat) (m : Nat)
    (cfg : FaderConfig) (pool : List SourceInfo) (ldr : FaderState) (ts : FaderState)
    (h : (load_config hc gc m cfg pool ldr).2 = some ts) :
    ts.temperaturefader_pwm_value = 0 ∧
    ts.temperaturefader_state = false ∧
    ts.temperaturefader_fading_poll = 1 ∧
    ts.temperaturefader_min_fade_temp = cfg.min_fade_temp.getD 50 ∧
    ts.temperaturefader_max_fade_temp = cfg.max_fade_temp.getD 150 ∧
    ts.temperaturefader_min_fade_pwm = cfg.min_fade_pwm.getD 0 ∧
    ts.temperaturefader_max_fade_pwm = cfg.max_fade_pwm.getD 255 ∧
    ts.temperaturefader_heatup_poll = cfg.heatup_poll.getD 15 ∧
    ts.temperaturefader_cooldown_poll = cfg.cooldown_poll.getD 60 ∧
    ts.countdown_timer = int16ofUInt16 (cfg.heatup_poll.getD 15) := by
  simp only [load_config] at h
  split_ifs at h
  all_goals simp only [Option.some.injEq] at h
  all_goals subst h
  all_goals exact ⟨rfl, rfl, rfl, rfl, rfl, rfl, rfl, rfl, rfl, rfl⟩

/-! ## C7 — dispatch with a differing value -/

/-- C7: for every dispatch call with `value != last_output_value`,
`on = (value > pwm_low)` is computed, the boolean state write to the switch
target is attempted if and only if `on != is_on` (with `is_on` updated to
`on`), `last_output_value` is set to `value` and the numeric duty write is
attempted; the local updates are the same whatever the write outcomes
(`env2` arbitrary), and each failed write is logged, not retried. -/
theorem C7_set_pwm_differing_value (env env2 : SinkEnv) (f : FaderState) (v : ℚ)
    (h : v ≠ f.temperaturefader_pwm_value) :
    (set_pwm env f v).1 =
      { f with
        temperaturefader_state := decide ((f.temperaturefader_min_fade_pwm : ℚ) < v)
        temperaturefader_pwm_value := v } ∧
    (set_pwm env f v).2.1 =
      (if decide ((f.temperaturefader_min_fade_pwm : ℚ) < v) = f.temperaturefader_state
        then []
        else [SinkWrite.stateWrite (decide ((f.temperaturefader_min_fade_pwm : ℚ) < v))])
        ++ [SinkWrite.valueWrite v] ∧
    (set_pwm env f v).1 = (set_pwm env2 f v).1 ∧
    (set_pwm env f v).2.1 = (set_pwm env2 f v).2.1 ∧
    (set_pwm env f v).2.2 =
      (if decide ((f.temperaturefader_min_fade_pwm : ℚ) < v) = f.temperaturefader_state
          ∨ env.state_write_ok = true
        then [] else [stateFailMsg])
        ++ (if env.value_write_ok = true then [] else [valueFailMsg]) := by
  rw [set_pwm_spec env f v, set_pwm_spec env2 f v, if_neg (Ne.symm h), if_neg (Ne.symm h)]
  exact ⟨rfl, rfl, rfl, rfl, rfl⟩

/-- Witness for C7 at a concrete input: a fresh controller, dispatch value 7,
both sink writes failing; the state write (turn on) and the value write are
still attempted, in that order. -/
theorem C7_set_pwm_differing_value_witness :
    (set_pwm ⟨false, false⟩ faderInit 7).2.1 =
      [SinkWrite.stateWrite true, SinkWrite.valueWrite 7] ∧
    (set_pwm ⟨false, false⟩ faderInit 7).2.2 = [stateFailMsg, valueFailMsg] := by
  have h := C7_set_pwm_differing_value ⟨false, false⟩ ⟨true, true⟩ faderInit 7 (by decide)
  refine ⟨?_, ?_⟩
  · rw [h.2.1]; decide
  · rw [h.2.2.2.2]; decide

/-! ## C8 — idempotent dispatch suppression -/

/-- C8: a dispatch call with `value == last_output_value` is a no-op (state
unchanged, no sink writes, no logs), and consequently the second of two
consecutive dispatches of the same value changes nothing and attempts no
write: the writes of the pair are exactly those of the first call. -/
theorem C8_set_pwm_idempotent :
    ∀ (env : SinkEnv) (f : FaderState) (v : ℚ),
      set_pwm env f f.temperaturefader_pwm_value = (f, [], []) ∧
      set_pwm env (set_pwm env f v).1 v = ((set_pwm env f v).1, [], []) := by
  have key : ∀ (env : SinkEnv) (g : FaderState) (v : ℚ),
      g.temperaturefader_pwm_value = v → set_pwm env g v = (g, [], []) := by
    intro env g v hv
    rw [set_pwm_spec, if_pos hv]
  intro env f v
  exact ⟨key env f f.temperaturefader_pwm_value rfl,
    key env (set_pwm env f v).1 v (set_pwm_pwm_value env f v)⟩

/-! ## C4 — highest-temperature sampling -/

/-- A controller bound to one source (handle 0), otherwise fresh. -/
def fC4 : FaderState := { faderInit with temp_controllers := [0] }

/-- Readings for the C4 counterexample: every lookup succeeds with -5. -/
def readC4 : Nat → Option ℚ := fun _ => some (-5)

/-- C4 counterexample: a controller with one readable source reporting
-5 samples 0, not the maximum reading -5; so the sampled temperature is
neither "the maximum of the readable readings" for this non-empty readable
set, nor is 0.0 reached only when no source is readable. -/
theorem C4_counterexample_negative_reading :
    fC4.temp_controllers.filterMap readC4 = [(-5 : ℚ)] ∧
    get_highest_temperature readC4 fC4 = 0 ∧
    get_highest_temperature readC4 fC4 ≠ (-5 : ℚ) := by
  refine ⟨rfl, rfl, by decide⟩

/-- C4 amended: the sampled temperature is the `max`-fold seeded at 0.0
over the readings of the readable sources — i.e. `max 0 (readings)`;
an unreadable source contributes nothing, the result is 0.0 when no source
is readable, and it is the maximum of the readable readings whenever that
maximum is nonnegative (a strictly negative maximum is masked to 0.0). -/
theorem C4_amended_highest_temperature (read : Nat → Option ℚ) (f : FaderState) :
    get_highest_temperature read f =
      (f.temp_controllers.filterMap read).foldl max 0 := by
  unfold get_highest_temperature
  exact foldl_read_max read f.temp_controllers 0

/-! ## Concrete factory inputs -/

/-- A stand-in for the checksum function applied to the switch name
(only injectivity on the inputs used matters to nothing here; the value is
stored opaquely). -/
def csFun : List Char → Nat := fun s => s.length

/-- C1 input: an enabled entry whose high bounds are below its low bounds
(`min_fade_temp=100 > max_fade_temp=50`, `min_fade_pwm=200 > max_fade_pwm=10`). -/
def cfgC1 : FaderConfig :=
  { enable := true
    designator := ['X']
    switch := ['f', 'a', 'n']
    type := []
    min_fade_temp := some 100
    max_fade_temp := some 50
    min_fade_pwm := some 200
    max_fade_pwm := some 10
    heatup_poll := none
    cooldown_poll := none
    fading_poll := none }

/-- One temperature controller tagged `X`, readable, for the C1 entry. -/
def poolC1 : List SourceInfo := [⟨1, true, 'X', 20⟩]

/-- The controller `load_config` actually creates from `cfgC1`. -/
def tsC1 : FaderState :=
  { faderInit with
    temp_controllers := [1]
    temperaturefader_switch_cs := 3
    temperaturefader_min_fade_temp := 100
    temperaturefader_max_fade_temp := 50
    temperaturefader_min_fade_pwm := 200
    temperaturefader_max_fade_pwm := 10
    countdown_timer := 15 }

/-- C1 (code bug): the entry `cfgC1` is accepted (a controller is created,
not rejected), but the created controller violates both range invariants:
`temp_high < temp_low` and `pwm_high < pwm_low`.  The clamp of cpp lines
154-160 runs on the loader object's own fields (the statements are the only
ones in `load_config` without the `ts->` prefix) and the loader is deleted
right after `on_module_loaded`, so the created controller is never clamped. -/
theorem C1_created_controller_unclamped :
    (load_config 100 csFun 7 cfgC1 poolC1 faderInit).2 = some tsC1 ∧
    tsC1.temperaturefader_max_fade_temp < tsC1.temperaturefader_min_fade_temp ∧
    tsC1.temperaturefader_max_fade_pwm < tsC1.temperaturefader_min_fade_pwm := by
  refine ⟨by decide, by decide, by decide⟩

/-- C2 input: a valid enabled entry with `min_fade_pwm = 0` (the claim's
`pwm_low = 0` case) and everything else defaulted. -/
def cfgC2 : FaderConfig :=
  { enable := true
    designator := ['Y']
    switch := ['f', 'a', 'n']
    type := []
    min_fade_temp := none
    max_fade_temp := none
    min_fade_pwm := some 0
    max_fade_pwm := none
    heatup_poll := none
    cooldown_poll := none
    fading_poll := none }

/-- One temperature controller tagged `Y`, readable, for the C2 entry. -/
def poolC2 : List SourceInfo := [⟨2, true, 'Y', 20⟩]

/-- The controller `load_config` actually creates from `cfgC2`. -/
def tsC2 : FaderState :=
  { faderInit with
    temp_controllers := [2]
    temperaturefader_switch_cs := 3
    countdown_timer := 15 }

/-- C2 counterexample: `last_output_value` is initialized to 0, which is a
real dispatch value, not a never-equal sentinel — on the freshly created
controller `tsC2` (with `pwm_low = 0`) the first dispatch of
`v = pwm_low = 0` is suppressed as redundant: no sink write is performed
and nothing changes. -/
theorem C2_counterexample_first_zero_suppressed :
    (load_config 100 csFun 7 cfgC2 poolC2 faderInit).2 = some tsC2 ∧
    tsC2.temperaturefader_min_fade_pwm = 0 ∧
    tsC2.temperaturefader_pwm_value = 0 ∧
    set_pwm ⟨true, true⟩ tsC2 ((tsC2.temperaturefader_min_fade_pwm : ℚ)) =
      (tsC2, [], []) := by
  refine ⟨by decide, rfl, rfl, by decide⟩

/-- C2 amended: every controller created by the factory starts with
`last_output_value = 0` (a real dispatch value, not a sentinel); the first
dispatch is performed — the numeric duty write is attempted and the stored
value updated — for every value `v ≠ 0`, but a first dispatch of `v = 0`
(in particular `v = pwm_low` when `pwm_low = 0`) is suppressed as
redundant and performs no write. -/
theorem C2_amended_first_dispatch (hc : Nat) (gc : List Char → Nat) (m : Nat)
    (cfg : FaderConfig) (pool : List SourceInfo) (ldr : FaderState) (ts : FaderState)
    (h : (load_config hc gc m cfg pool ldr).2 = some ts)
    (env : SinkEnv) (v : ℚ) :
    ts.temperaturefader_pwm_value = 0 ∧
    (v ≠ 0 →
      SinkWrite.valueWrite v ∈ (set_pwm env ts v).2.1 ∧
      (set_pwm env ts v).1.temperaturefader_pwm_value = v) ∧
    (v = 0 → set_pwm env ts v = (ts, [], [])) := by
  obtain ⟨hpv, -⟩ := load_config_created_fields hc gc m cfg pool ldr ts h
  refine ⟨hpv, fun hv => ⟨?_, set_pwm_pwm_value env ts v⟩, fun hv => ?_⟩
  · rw [set_pwm_spec, if_neg (by rw [hpv]; exact fun e => hv e.symm)]
    simp
  · rw [set_pwm_spec, if_pos (by rw [hpv, hv])]

/-- Witness for C2 amended at a concrete input: on the factory-created
controller `tsC2`, a first dispatch of 7 attempts the duty write. -/
theorem C2_amended_first_dispatch_witness :
    SinkWrite.valueWrite 7 ∈ (set_pwm ⟨true, true⟩ tsC2 7).2.1 :=
  ((C2_amended_first_dispatch 100 csFun 7 cfgC2 poolC2 faderInit tsC2 (by decide)
    ⟨true, true⟩ 7).2.1 (by decide)).1

/-- C3 input: a valid enabled entry that sets the `fading_poll` key to 5. -/
def cfgC3 : FaderConfig :=
  { enable := true
    designator := ['Z']
    switch := ['f', 'a', 'n']
    type := []
    min_fade_temp := none
    max_fade_temp := none
    min_fade_pwm := none
    max_fade_pwm := none
    heatup_poll := none
    cooldown_poll := none
    fading_poll := some 5 }

/-- One temperature controller tagged `Z`, readable, for the C3 entry. -/
def poolC3 : List SourceInfo := [⟨3, true, 'Z', 20⟩]

/-- The controller `load_config` actually creates from `cfgC3`. -/
def tsC3 : FaderState :=
  { faderInit with
    temp_controllers := [3]
    temperaturefader_switch_cs := 3
    countdown_timer := 15 }

/-- C3 (code bug): the entry `cfgC3` configures `fading_poll = 5`, yet the
created controller's `temperaturefader_fading_poll` is the constructor
default 1: no statement of `load_config` reads the `fading_poll` key, even
though its checksum is defined (cpp line 44) and the header documents the
key as configurable (TemperatureFader.h lines 73-75). -/
theorem C3_fading_poll_ignored :
    cfgC3.fading_poll = some 5 ∧
    (load_config 100 csFun 7 cfgC3 poolC3 faderInit).2 = some tsC3 ∧
    tsC3.temperaturefader_fading_poll = 1 ∧
    tsC3.temperaturefader_fading_poll ≠ 5 := by
  refine ⟨rfl, by decide, rfl, by decide⟩

/-! ## C5 — acting tick: three-way split -/

/-- Modelled from the claim wording: the dispatch value of the acting tick,
`pwm_low` for `temp <= temp_low`, `pwm_high` for `temp >= temp_high`, and
`pwm_low + trunc((temp-temp_low)/(temp_high-temp_low) * (pwm_high-pwm_low))`
(truncation toward zero) strictly inside the band. -/
def specDispatchValue (f : FaderState) (t : ℚ) : ℚ :=
  if t ≤ f.temperaturefader_min_fade_temp then (f.temperaturefader_min_fade_pwm : ℚ)
  else if f.temperaturefader_max_fade_temp ≤ t then (f.temperaturefader_max_fade_pwm : ℚ)
  else (f.temperaturefader_min_fade_pwm : ℚ) +
    ((qtrunc ((t - f.temperaturefader_min_fade_temp) /
        (f.temperaturefader_max_fade_temp - f.temperaturefader_min_fade_temp) *
        ((f.temperaturefader_max_fade_pwm : ℚ) -
          (f.temperaturefader_min_fade_pwm : ℚ)))) : ℚ)

/-- Modelled from the claim wording: the poll interval the acting tick
selects for the countdown reset (`poll_heatup` / `poll_cooldown` /
`poll_fading` by the same three-way split). -/
def specNextCountdownPoll (f : FaderState) (t : ℚ) : Nat :=
  if t ≤ f.temperaturefader_min_fade_temp then f.temperaturefader_heatup_poll
  else if f.temperaturefader_max_fade_temp ≤ t then f.temperaturefader_cooldown_poll
  else f.temperaturefader_fading_poll

/-- Casting the integer sum the fading branch computes. -/
theorem cast_add_qtrunc (n : Nat) (q : ℚ) :
    ((((n : ℤ) + qtrunc q) : ℤ) : ℚ) = (n : ℚ) + ((qtrunc q : ℤ) : ℚ) := by
  push_cast
  ring

/-- C5 counterexample: on an acting tick with `temp <= temp_low` and
`poll_heatup = 40000` (a representable `uint16_t` configuration value), the
next countdown is the `int16_t` reinterpretation -25536, not `poll_heatup`:
the claim's "sets countdown = poll_heatup" fails for poll values above
32767 because `countdown_timer` is an `int16_t`. -/
def fC5 : FaderState :=
  { faderInit with countdown_timer := 1, temperaturefader_heatup_poll := 40000 }

/-- C5 counterexample theorem (see `fC5`): the tick acts (countdown 1),
resolves to the idle branch (no readable source, temp 0 <= 50), and sets
the countdown to -25536 ≠ 40000. -/
theorem C5_counterexample_countdown_wrap :
    fC5.countdown_timer ≤ 1 ∧
    get_highest_temperature (fun _ => none) fC5 ≤ fC5.temperaturefader_min_fade_temp ∧
    (on_second_tick (fun _ => none) ⟨true, true⟩ fC5).1.countdown_timer = -25536 ∧
    (on_second_tick (fun _ => none) ⟨true, true⟩ fC5).1.countdown_timer ≠
      (fC5.temperaturefader_heatup_poll : ℤ) := by
  refine ⟨by decide, by decide, by decide, by decide⟩

/-- C5 amended: on every tick with `countdown <= 1` the controller
dispatches `specDispatchValue` (exactly the claim's three-way value split,
including the truncated interpolation) and resets the countdown to the
claim's three-way choice of poll interval reinterpreted as `int16_t`
(equal to the poll interval itself whenever it is at most 32767). -/
theorem C5_amended_tick_dispatch (read : Nat → Option ℚ) (env : SinkEnv)
    (f : FaderState) (h : f.countdown_timer ≤ 1) :
    (on_second_tick read env f).1 =
      { (set_pwm env f (specDispatchValue f (get_highest_temperature read f))).1 with
        countdown_timer :=
          int16ofUInt16 (specNextCountdownPoll f (get_highest_temperature read f)) } ∧
    (on_second_tick read env f).2 =
      (set_pwm env f (specDispatchValue f (get_highest_temperature read f))).2 := by
  simp only [on_second_tick, specDispatchValue, specNextCountdownPoll, if_pos h,
    cast_add_qtrunc]
  split_ifs with hlow hhigh
  · exact ⟨rfl, rfl⟩
  · exact ⟨rfl, rfl⟩
  · exact ⟨rfl, rfl⟩

/-- A fresh controller whose countdown has expired. -/
def fW5 : FaderState := { faderInit with countdown_timer := 1 }

/-- Witness for C5 amended at a concrete input (fresh controller,
countdown 1, no readable source). -/
theorem C5_amended_tick_dispatch_witness :
    (on_second_tick (fun _ => none) ⟨true, true⟩ fW5).1 =
      { (set_pwm ⟨true, true⟩ fW5
          (specDispatchValue fW5 (get_highest_temperature (fun _ => none) fW5))).1 with
        countdown_timer :=
          int16ofUInt16
            (specNextCountdownPoll fW5 (get_highest_temperature (fun _ => none) fW5)) } :=
  (C5_amended_tick_dispatch (fun _ => none) ⟨true, true⟩ fW5 (by decide)).1

/-! ## C6 — the fading branch needs a strict band -/

/-- C6: the fading branch is reached only when `temp_low < temp_high`
strictly; with a degenerate band (`temp_high == temp_low`) a tick never
resolves to the fading branch, so the division
`(temp - temp_low)/(temp_high - temp_low)` is never evaluated with a zero
denominator. -/
theorem C6_fading_requires_strict_band (read : Nat → Option ℚ) (f : FaderState) :
    (tick_branch read f = TickBranch.fading →
      f.temperaturefader_min_fade_temp < f.temperaturefader_max_fade_temp) ∧
    (f.temperaturefader_max_fade_temp = f.temperaturefader_min_fade_temp →
      tick_branch read f ≠ TickBranch.fading) := by
  simp only [tick_branch]
  split_ifs with hcd hlow hhigh
  · simp
  · simp
  · refine ⟨fun _ => lt_trans (not_le.mp hlow) (not_le.mp hhigh), fun heq _ => ?_⟩
    have hlt := lt_trans (not_le.mp hlow) (not_le.mp hhigh)
    rw [heq] at hlt
    exact lt_irrefl _ hlt
  · simp

/-- A controller with a degenerate band (`temp_high = temp_low = 50`). -/
def fC6 : FaderState :=
  { faderInit with temperaturefader_max_fade_temp := 50, countdown_timer := 1 }

/-- Witness for C6 at a concrete input: a degenerate band never yields the
fading branch. -/
theorem C6_fading_requires_strict_band_witness :
    tick_branch (fun _ => none) fC6 ≠ TickBranch.fading :=
  (C6_fading_requires_strict_band (fun _ => none) fC6).2 (by decide)

/-! ## C9 — waiting tick only decrements the countdown -/

/-- C9: on every tick with `countdown > 1` the only change is
`countdown := countdown - 1`: every other field is unchanged and no sink
write or log is produced. -/
theorem C9_wait_decrements_only (read : Nat → Option ℚ) (env : SinkEnv)
    (f : FaderState) (h : 1 < f.countdown_timer) :
    on_second_tick read env f =
      ({ f with countdown_timer := f.countdown_timer - 1 }, [], []) := by
  unfold on_second_tick
  rw [if_neg (not_le.mpr h)]

/-- A fresh controller with countdown 5. -/
def fC9 : FaderState := { faderInit with countdown_timer := 5 }

/-- Witness for C9 at a concrete input: countdown 5 becomes 4 and nothing
else happens. -/
theorem C9_wait_decrements_only_witness :
    (1 : ℤ) < fC9.countdown_timer ∧
    on_second_tick (fun _ => none) ⟨true, true⟩ fC9 =
      ({ fC9 with countdown_timer := 4 }, [], []) := by
  refine ⟨by decide, ?_⟩
  rw [C9_wait_decrements_only (fun _ => none) ⟨true, true⟩ fC9 (by decide)]
  decide

/-! ## C10 — `is_on` tracks the stored pwm value -/

/-- The implicit invariant of C10:
`is_on == (last_output_value > pwm_low)`. -/
def fader_invariant (f : FaderState) : Prop :=
  f.temperaturefader_state =
    decide ((f.temperaturefader_min_fade_pwm : ℚ) < f.temperaturefader_pwm_value)

/-- `set_pwm` preserves `fader_invariant`. -/
theorem fader_invariant_set_pwm (env : SinkEnv) (f : FaderState) (v : ℚ)
    (hf : fader_invariant f) : fader_invariant (set_pwm env f v).1 := by
  rw [set_pwm_spec]
  by_cases h : f.temperaturefader_pwm_value = v
  · rw [if_pos h]; exact hf
  · rw [if_neg h]; rfl

/-- C10: `is_on == (last_output_value > pwm_low)` holds at construction,
holds for every controller the factory creates, and is preserved by every
dispatch call and by every tick. -/
theorem C10_is_on_tracks_pwm_value :
    fader_invariant faderInit ∧
    (∀ (hc : Nat) (gc : List Char → Nat) (m : Nat) (cfg : FaderConfig)
        (pool : List SourceInfo) (ldr ts : FaderState),
      (load_config hc gc m cfg pool ldr).2 = some ts → fader_invariant ts) ∧
    (∀ (env : SinkEnv) (f : FaderState) (v : ℚ),
      fader_invariant f → fader_invariant (set_pwm env f v).1) ∧
    (∀ (read : Nat → Option ℚ) (env : SinkEnv) (f : FaderState),
      fader_invariant f → fader_invariant (on_second_tick read env f).1) := by
  refine ⟨rfl, ?_, fader_invariant_set_pwm, ?_⟩
  · intro hc gc m cfg pool ldr ts h
    obtain ⟨hpv, hst, -, -, -, hmin, -⟩ := load_config_created_fields hc gc m cfg pool ldr ts h
    unfold fader_invariant
    rw [hpv, hst, hmin]
    symm
    rw [decide_eq_false_iff_not]
    exact not_lt.mpr (Nat.cast_nonneg _)
  · intro read env f hf
    simp only [on_second_tick]
    split_ifs with hcd hlow hhigh
    · exact fader_invariant_set_pwm env f _ hf
    · exact fader_invariant_set_pwm env f _ hf
    · exact fader_invariant_set_pwm env f _ hf
    · exact hf

/-- Witness for C10 at a concrete input: the invariant holds after
dispatching 7 on a fresh controller. -/
theorem C10_is_on_tracks_pwm_value_witness :
    fader_invariant (set_pwm ⟨true, true⟩ faderInit 7).1 :=
  C10_is_on_tracks_pwm_value.2.2.1 ⟨true, true⟩ faderInit 7 rfl

end TemperatureFaderModel
